import Mathlib

/-!
Shallow embedding of `src/icebox/icebox/nt/nt_memory.cpp` (the NT
virtual-to-physical translation core): the page-table walker, the
software-PTE classifier, the prototype resolver and the page-granular
write API.  64-bit machine values are embedded as `Nat`, with `% 2^64`
applied exactly where C++ `uint64_t` arithmetic can wrap.  Every
collaborator call (physical read, physical write, virtual read under an
explicit DTB) is recorded in an event log so that properties about which
reads and writes a translation performs can be stated and proved.

The bit layout of `MMPTE` and `virt_t` lives in `nt_mmu.hpp`, which is
not part of the provided source; those field extractors are modelled
from the spec (address decomposition widths, the mutually exclusive PTE
interpretations) together with the standard NT/x86-64 layout, and each
such definition says so in its doc comment.
-/

namespace Icebox

/-- Modelled from the spec: fixed page size of 4096 bytes (`PAGE_SIZE`
from the missing `nt_mmu.hpp`). -/
def PAGE_SIZE : Nat := 4096

/-- `mask(bits)` from nt_memory.cpp: `~(~0 << bits)`, the lowest `bits`
bits set. -/
def mask (bits : Nat) : Nat := 2 ^ bits - 1

/-- Modelled from the spec: 12-bit page offset of a virtual address
(`virt_t` field `offset`, missing `nt_mmu.hpp`). -/
def vOffset (v : Nat) : Nat := v % 2 ^ 12

/-- Modelled from the spec: leaf-table index, 9 bits at bit 12
(`virt_t` field `pt`, missing `nt_mmu.hpp`). -/
def vPt (v : Nat) : Nat := (v >>> 12) % 2 ^ 9

/-- Modelled from the spec: lower-mid-table index, 9 bits at bit 21
(`virt_t` field `pd`, missing `nt_mmu.hpp`). -/
def vPd (v : Nat) : Nat := (v >>> 21) % 2 ^ 9

/-- Modelled from the spec: upper-mid-table index, 9 bits at bit 30
(`virt_t` field `pdp`, missing `nt_mmu.hpp`). -/
def vPdp (v : Nat) : Nat := (v >>> 30) % 2 ^ 9

/-- Modelled from the spec: top-table index, 9 bits at bit 39
(`virt_t` field `pml4`, missing `nt_mmu.hpp`). -/
def vPml4 (v : Nat) : Nat := (v >>> 39) % 2 ^ 9

/-- Modelled from the spec: hardware present bit (`MMPTE.u.hard.Valid`,
bit 0, missing `nt_mmu.hpp`). -/
def hardValid (v : Nat) : Bool := v.testBit 0

/-- Modelled from the spec: hardware large-page flag
(`MMPTE.u.hard.LargePage`, bit 7, missing `nt_mmu.hpp`). -/
def hardLargePage (v : Nat) : Bool := v.testBit 7

/-- Modelled from the spec: hardware page-frame number
(`MMPTE.u.hard.PageFrameNumber`, 36 bits at bit 12, missing
`nt_mmu.hpp`). -/
def hardPFN (v : Nat) : Nat := (v >>> 12) % 2 ^ 36

/-- Swizzle flag of a software PTE (`MMPTE.u.soft.SwizzleBit`); bit 4,
as witnessed by the `PteValue & 0x10` comment in `unswizzle_pte`. -/
def softSwizzleBit (v : Nat) : Bool := v.testBit 4

/-- Modelled from the spec: software prototype flag
(`MMPTE.u.soft.Prototype`, bit 10, missing `nt_mmu.hpp`). -/
def softPrototype (v : Nat) : Bool := v.testBit 10

/-- Modelled from the spec: software transition flag
(`MMPTE.u.soft.Transition`, bit 11, missing `nt_mmu.hpp`). -/
def softTransition (v : Nat) : Bool := v.testBit 11

/-- Modelled from the spec: on-disk indicator of a software PTE
(`MMPTE.u.soft.PageFileHigh`, 32 bits at bit 32, missing
`nt_mmu.hpp`). -/
def softPageFileHigh (v : Nat) : Nat := (v >>> 32) % 2 ^ 32

/-- Modelled from the spec: transition-form page-frame number
(`MMPTE.u.trans.PageFrameNumber`, 36 bits at bit 12, missing
`nt_mmu.hpp`). -/
def transPFN (v : Nat) : Nat := (v >>> 12) % 2 ^ 36

/-- Modelled from the spec: prototype-target address
(`MMPTE.u.proto.ProtoAddress`, a signed 48-bit field at bit 16,
sign-extended to 64 bits, missing `nt_mmu.hpp`).  Sign extension is
required for the spec's all-ones-upper-32-bits sentinel to be
representable. -/
def protoAddress (v : Nat) : Nat :=
  let f := (v >>> 16) % 2 ^ 48
  if f >>> 47 = 1 then 0xFFFF000000000000 + f else f

/-- `nt::Os::is_kernel_address`: `!!(ptr & 0xFFF0000000000000)`. -/
def is_kernel_address (ptr : Nat) : Bool :=
  ptr &&& 0xFFF0000000000000 != 0

/-- One collaborator call performed during a translation. -/
inductive Event where
  | physRead : Nat → Event
  | physWrite : Nat → Event
  | virtRead : Nat → Nat → Event
deriving DecidableEq, Repr

/-- Whether an event is a physical write. -/
def Event.isWrite : Event → Bool
  | .physWrite _ => true
  | _ => false

/-- `ntphy_t` from nt_memory.cpp. -/
structure ntphy_t where
  ptr : Nat
  valid_page : Bool
  zero_page : Bool
deriving DecidableEq, Repr

/-- `physical_page` from nt_memory.cpp. -/
def physical_page (pfn offset : Nat) : ntphy_t :=
  ⟨pfn + offset, true, false⟩

/-- `page_fault_required` from nt_memory.cpp. -/
def page_fault_required : ntphy_t := ⟨0, false, false⟩

/-- `zero_page` from nt_memory.cpp. -/
def zero_page : ntphy_t := ⟨0, false, true⟩

/-- `proc_t`: the slice of the external process context this core uses
(its kernel DTB). -/
structure proc_t where
  kdtb : Nat
deriving DecidableEq, Repr

/-- `vm_area_t`: an address-space-descriptor handle; `id` is the
descriptor record's address. -/
structure vm_area_t where
  id : Nat
deriving DecidableEq, Repr

/-- `span_t`: start and size of the region a descriptor covers. -/
structure span_t where
  addr : Nat
  size : Nat
deriving DecidableEq, Repr

/-- The OS-session object (`nt::Os`) together with its external
collaborators (`memory::read_physical`, `memory::write_physical`,
`memory::read_virtual_with_dtb`, `vm_area::find`, `vm_area::span`),
modelled as injected functions.  A physical or virtual read returns the
8-byte little-endian value read, or `none` on failure. -/
structure Os where
  physicalMemoryLimitMask : Nat
  kernel_dtb : Nat
  offsetFirstPrototypePte : Nat
  read_physical : Nat → Option Nat
  write_physical : Nat → Bool
  read_virtual_with_dtb : Nat → Nat → Option Nat
  find_area : proc_t → Nat → Option vm_area_t
  area_span : proc_t → vm_area_t → Option span_t

/-- `unswizzle_pte` from nt_memory.cpp:
`if(mask && !swizzle) value &= ~mask`, with the 64-bit complement of the
mask. -/
def unswizzle_pte (os : Os) (v : Nat) : Nat :=
  if os.physicalMemoryLimitMask != 0 && !softSwizzleBit v then
    v &&& (0xFFFFFFFFFFFFFFFF ^^^ os.physicalMemoryLimitMask)
  else v

/-- `prototype_pte_to_physical` from nt_memory.cpp: the terminal
classification of a fetched prototype entry.  It performs no collaborator
call, so it returns a bare `ntphy_t`. -/
def prototype_pte_to_physical (os : Os) (ptr : Nat) (pte : Nat) : ntphy_t :=
  if hardValid pte then
    physical_page (hardPFN pte * PAGE_SIZE) (vOffset ptr)
  else
    let pte := unswizzle_pte os pte
    if softPrototype pte then
      page_fault_required
    else if softTransition pte then
      physical_page (transPFN pte * PAGE_SIZE) (vOffset ptr)
    else if softPageFileHigh pte = 0 then
      zero_page
    else
      page_fault_required

/-- `vad_pte_to_physical` from nt_memory.cpp: the per-process
(address-space-descriptor) prototype branch.  Both virtual reads use the
process's kernel DTB; the pointer difference and the entry-address sum
wrap as C++ `uint64_t` arithmetic does. -/
def vad_pte_to_physical (os : Os) (ptr : Nat) (proc : Option proc_t) :
    Option ntphy_t × List Event :=
  match proc with
  | none =>
    if is_kernel_address ptr then (none, [])
    else (some page_fault_required, [])
  | some p =>
    match os.find_area p ptr with
    | none => (none, [])
    | some area =>
      match os.area_span p area with
      | none => (none, [])
      | some sp =>
        let fpp_ptr := area.id + os.offsetFirstPrototypePte
        match os.read_virtual_with_dtb p.kdtb fpp_ptr with
        | none => (none, [.virtRead p.kdtb fpp_ptr])
        | some first_proto_pte =>
          let pte_ptr :=
            (first_proto_pte + (ptr + 2 ^ 64 - sp.addr) % 2 ^ 64 / PAGE_SIZE * 8) % 2 ^ 64
          match os.read_virtual_with_dtb p.kdtb pte_ptr with
          | none => (none, [.virtRead p.kdtb fpp_ptr, .virtRead p.kdtb pte_ptr])
          | some pte =>
            (some (prototype_pte_to_physical os ptr pte),
             [.virtRead p.kdtb fpp_ptr, .virtRead p.kdtb pte_ptr])

/-- The all-ones-upper-32-bits sentinel test mask (`vad_mask` in
`pte_to_physical`). -/
def vad_mask : Nat := 0xFFFFFFFF00000000

/-- `pte_to_physical` from nt_memory.cpp: the software-PTE classifier.
The pool prototype fetch always reads with the OS kernel DTB. -/
def pte_to_physical (os : Os) (ptr : Nat) (proc : Option proc_t) (pte : Nat) :
    Option ntphy_t × List Event :=
  if hardValid pte then
    (some (physical_page (hardPFN pte * PAGE_SIZE) (vOffset ptr)), [])
  else
    let pte := unswizzle_pte os pte
    if softPrototype pte then
      if protoAddress pte &&& vad_mask = vad_mask then
        vad_pte_to_physical os ptr proc
      else
        let addr := protoAddress pte
        match os.read_virtual_with_dtb os.kernel_dtb addr with
        | none =>
          (some page_fault_required, [.virtRead os.kernel_dtb addr])
        | some fetched =>
          (some (prototype_pte_to_physical os ptr fetched),
           [.virtRead os.kernel_dtb addr])
    else if softTransition pte then
      (some (physical_page (transPFN pte * PAGE_SIZE) (vOffset ptr)), [])
    else if pte = 0 then
      vad_pte_to_physical os ptr proc
    else if softPageFileHigh pte = 0 then
      (some zero_page, [])
    else
      (some page_fault_required, [])

/-- `read_pml4e` from nt_memory.cpp: read and present-check the
top-level entry. -/
def read_pml4e (os : Os) (ptr : Nat) (dtb : Nat) : Option Nat × List Event :=
  let pml4e_base := dtb &&& (mask 40 <<< 12)
  let pml4e_ptr := pml4e_base + vPml4 ptr * 8
  match os.read_physical pml4e_ptr with
  | none => (none, [.physRead pml4e_ptr])
  | some pml4e =>
    (if hardValid pml4e then some pml4e else none, [.physRead pml4e_ptr])

/-- `read_pdpe` from nt_memory.cpp: read and present-check the
upper-mid entry. -/
def read_pdpe (os : Os) (ptr : Nat) (pml4e : Nat) : Option Nat × List Event :=
  let pdpe_ptr := hardPFN pml4e * PAGE_SIZE + vPdp ptr * 8
  match os.read_physical pdpe_ptr with
  | none => (none, [.physRead pdpe_ptr])
  | some pdpe =>
    (if hardValid pdpe then some pdpe else none, [.physRead pdpe_ptr])

/-- `read_pde` from nt_memory.cpp: read the lower-mid entry; no
present check (a non-present PDE is classified downstream). -/
def read_pde (os : Os) (ptr : Nat) (pdpe : Nat) : Option Nat × List Event :=
  let pde_ptr := hardPFN pdpe * PAGE_SIZE + vPd ptr * 8
  match os.read_physical pde_ptr with
  | none => (none, [.physRead pde_ptr])
  | some pde => (some pde, [.physRead pde_ptr])

/-- `read_pte` from nt_memory.cpp: read the leaf entry; no present
check (the raw entry goes to the classifier). -/
def read_pte (os : Os) (ptr : Nat) (pde : Nat) : Option Nat × List Event :=
  let pte_ptr := hardPFN pde * PAGE_SIZE + vPt ptr * 8
  match os.read_physical pte_ptr with
  | none => (none, [.physRead pte_ptr])
  | some pte => (some pte, [.physRead pte_ptr])

/-- The anonymous-namespace `virtual_to_physical` from nt_memory.cpp:
the four-level walker with 1 GiB and 2 MiB large-page short-circuits. -/
def virtual_to_physical (os : Os) (ptr : Nat) (proc : Option proc_t) (dtb : Nat) :
    Option ntphy_t × List Event :=
  match read_pml4e os ptr dtb with
  | (none, l1) => (none, l1)
  | (some pml4e, l1) =>
    match read_pdpe os ptr pml4e with
    | (none, l2) => (none, l1 ++ l2)
    | (some pdpe, l2) =>
      if hardLargePage pdpe then
        (some (physical_page (pdpe &&& (mask 22 <<< 30)) (ptr &&& mask 30)),
         l1 ++ l2)
      else
        match read_pde os ptr pdpe with
        | (none, l3) => (none, l1 ++ l2 ++ l3)
        | (some pde, l3) =>
          if !hardValid pde then
            let r := pte_to_physical os ptr proc pde
            (r.1, l1 ++ l2 ++ l3 ++ r.2)
          else if hardLargePage pde then
            (some (physical_page (pde &&& (mask 31 <<< 21)) (ptr &&& mask 21)),
             l1 ++ l2 ++ l3)
          else
            match read_pte os ptr pde with
            | (none, l4) => (none, l1 ++ l2 ++ l3 ++ l4)
            | (some pte, l4) =>
              let r := pte_to_physical os ptr proc pte
              (r.1, l1 ++ l2 ++ l3 ++ l4 ++ r.2)

/-- `is_zero` from nt_memory.cpp: every byte of the source buffer is
zero. -/
def is_zero (src : Nat → Nat) (size : Nat) : Bool :=
  (List.range size).all fun i => src i == 0

/-- `nt::Os::write_page` from nt_memory.cpp.  The source buffer is a
byte function; a physical write is recorded as an event and its success
comes from the collaborator. -/
def write_page (os : Os) (ptr : Nat) (src : Nat → Nat) (proc : Option proc_t)
    (dtb : Nat) : Bool × List Event :=
  match virtual_to_physical os ptr proc dtb with
  | (none, l) => (false, l)
  | (some nt_phy, l) =>
    if nt_phy.valid_page then
      (os.write_physical nt_phy.ptr, l ++ [.physWrite nt_phy.ptr])
    else if nt_phy.zero_page then
      (is_zero src PAGE_SIZE, l)
    else
      (false, l)

/-- `nt::Os::virtual_to_physical` from nt_memory.cpp: the public
wrapper, which reports a physical address only for the resolved case. -/
def Os.virtual_to_physical (os : Os) (proc : Option proc_t) (dtb : Nat)
    (ptr : Nat) : Option Nat :=
  match (Icebox.virtual_to_physical os ptr proc dtb).1 with
  | none => none
  | some nt_phy => if nt_phy.valid_page then some nt_phy.ptr else none

/-! ## Concrete sessions and entries used to exercise the theorems -/

/-- A session with a zero physical-memory-limit mask and failing
collaborators. -/
def osMask0 : Os :=
  { physicalMemoryLimitMask := 0
    kernel_dtb := 0
    offsetFirstPrototypePte := 0
    read_physical := fun _ => none
    write_physical := fun _ => false
    read_virtual_with_dtb := fun _ _ => none
    find_area := fun _ _ => none
    area_span := fun _ _ => none }

/-- A session whose physical-memory-limit mask is
`0xFFFF000000000000`. -/
def osMaskFFFF : Os :=
  { osMask0 with physicalMemoryLimitMask := 0xFFFF000000000000 }

/-- A prototype-flagged software entry whose prototype-target address is
the pool address `0x1000`. -/
def ptePool : Nat := 0x1000 <<< 16 ||| 1 <<< 10

/-- A prototype-flagged software entry whose prototype-target address is
the pool address `0x2000`. -/
def ptePool2 : Nat := 0x2000 <<< 16 ||| 1 <<< 10

/-- A prototype-flagged software entry carrying the all-ones sentinel
target (upper 32 bits of the target address all set). -/
def pteSent : Nat := 0xFFFF <<< 48 ||| 1 <<< 10

/-- A session whose pool read at `0x1000` under the kernel DTB `0x5000`
returns an exactly-zero entry. -/
def osPool : Os :=
  { osMask0 with
    kernel_dtb := 0x5000
    read_virtual_with_dtb := fun dtb addr =>
      if dtb = 0x5000 && addr = 0x1000 then some 0 else none }

/-- A session whose pool read at `0x1000` under the kernel DTB `0x5000`
returns an entry that is itself prototype-flagged. -/
def osPoolProto : Os :=
  { osMask0 with
    kernel_dtb := 0x5000
    read_virtual_with_dtb := fun dtb addr =>
      if dtb = 0x5000 && addr = 0x1000 then some ptePool2 else none }

/-- A physical-memory image with a valid top entry (frame 2) and a
1 GiB large-page upper-mid entry. -/
def os7a : Os :=
  { osMask0 with
    read_physical := fun a =>
      if a = 0x1000 then some 0x2001
      else if a = 0x2000 then some (1 <<< 30 ||| 0x81)
      else none }

/-- A physical-memory image with valid top and upper-mid entries and a
2 MiB large-page lower-mid entry. -/
def os7b : Os :=
  { osMask0 with
    read_physical := fun a =>
      if a = 0x1000 then some 0x2001
      else if a = 0x2000 then some 0x3001
      else if a = 0x3000 then some (1 <<< 21 ||| 0x81)
      else none }

/-- A physical-memory image with a full present chain ending in a
hardware-present leaf entry with frame number 7. -/
def os8 : Os :=
  { osMask0 with
    read_physical := fun a =>
      if a = 0x1000 then some 0x2001
      else if a = 0x2000 then some 0x3001
      else if a = 0x3000 then some 0x4001
      else if a = 0x4000 then some 0x7001
      else none }

/-- A physical-memory image with a full present chain whose leaf entry
(`0x20`) classifies as demand-zero. -/
def os9 : Os :=
  { osMask0 with
    read_physical := fun a =>
      if a = 0x1000 then some 0x2001
      else if a = 0x2000 then some 0x3001
      else if a = 0x3000 then some 0x4001
      else if a = 0x4000 then some 0x20
      else none }

/-- A process with kernel DTB `0x5000`. -/
def p10 : proc_t := ⟨0x5000⟩

/-- A session whose descriptor lookup succeeds but whose virtual reads
all fail. -/
def os10a : Os :=
  { osMask0 with
    find_area := fun _ _ => some ⟨0x9000⟩
    area_span := fun _ _ => some ⟨0, 0x100000⟩ }

/-- A session whose descriptor lookup succeeds, whose read of the
first-prototype-entry field returns `0x7000`, and whose read of the
prototype entry itself fails. -/
def os10b : Os :=
  { osMask0 with
    find_area := fun _ _ => some ⟨0x9000⟩
    area_span := fun _ _ => some ⟨0, 0x100000⟩
    read_virtual_with_dtb := fun dtb a =>
      if dtb = 0x5000 && a = 0x9000 then some 0x7000 else none }

/-! ## Helper lemmas -/

/-- Bit `i` of the kernel-address test mask `0xFFF0000000000000` is set
exactly for `52 ≤ i ≤ 63`. -/
theorem kernel_mask_testBit (i : Nat) :
    (0xFFF0000000000000 : Nat).testBit i = (decide (52 ≤ i) && decide (i ≤ 63)) := by
  have h : (0xFFF0000000000000 : Nat) = (2 ^ 12 - 1) <<< 52 := by rfl
  rw [h, Nat.testBit_shiftLeft, Nat.testBit_two_pow_sub_one]
  simp only [ge_iff_le]
  by_cases h52 : 52 ≤ i
  · rw [decide_eq_true h52, Bool.true_and, Bool.true_and, decide_eq_decide]
    omega
  · rw [decide_eq_false h52, Bool.false_and, Bool.false_and]

/-- A value masked by anything shifted left by `k` is `0` modulo `2^k`. -/
theorem land_shiftLeft_mod_two_pow (x a k : Nat) :
    (x &&& (a <<< k)) % 2 ^ k = 0 := by
  apply Nat.eq_of_testBit_eq
  intro i
  rw [Nat.zero_testBit, Nat.testBit_mod_two_pow, Nat.testBit_land,
    Nat.testBit_shiftLeft]
  by_cases hik : i < k
  · have : ¬ (i ≥ k) := by omega
    simp [hik, this]
  · simp [hik]

/-- The unswizzle step leaves a zero entry unchanged. -/
theorem unswizzle_pte_zero (os : Os) : unswizzle_pte os 0 = 0 := by
  unfold unswizzle_pte
  split
  · exact Nat.zero_and _
  · rfl

/-! ## Claim theorems -/

/-- C3 counterexample: the claim "the kernel-address classifier returns
true iff bits 52–63 are all set" fails at `0x0010000000000000`, where
only bit 52 is set: the classifier returns `true` while bit 53 of the
value is clear. -/
theorem is_kernel_address_bit52_only :
    is_kernel_address 0x0010000000000000 = true
    ∧ (0x0010000000000000 : Nat).testBit 53 = false := by
  constructor <;> rfl

/-- C3 (amended): the kernel-address classifier returns true iff at
least one of bits 52–63 of the value is set. -/
theorem is_kernel_address_iff_exists_high_bit (v : Nat) :
    is_kernel_address v = true ↔ ∃ i, 52 ≤ i ∧ i ≤ 63 ∧ v.testBit i = true := by
  unfold is_kernel_address
  simp only [bne_iff_ne, ne_eq]
  constructor
  · intro h
    by_contra hc
    push_neg at hc
    apply h
    apply Nat.eq_of_testBit_eq
    intro i
    rw [Nat.zero_testBit, Nat.testBit_land, kernel_mask_testBit]
    by_cases h52 : 52 ≤ i
    · by_cases h63 : i ≤ 63
      · have hv := hc i h52 h63
        simp only [Bool.not_eq_true] at hv
        simp [hv]
      · simp [h63]
    · simp [h52]
  · rintro ⟨i, h52, h63, hb⟩ h0
    have hbit : (v &&& 0xFFF0000000000000).testBit i = false := by
      rw [h0]; exact Nat.zero_testBit i
    rw [Nat.testBit_land, kernel_mask_testBit, hb] at hbit
    simp [h52, h63] at hbit

/-- C3 witness: the amended characterisation applied at
`0xFFF0000000000000` (bit 63 set). -/
theorem is_kernel_address_iff_exists_high_bit_witness :
    is_kernel_address 0xFFF0000000000000 = true :=
  (is_kernel_address_iff_exists_high_bit 0xFFF0000000000000).mpr
    ⟨63, by decide, by decide, by decide⟩

/-- C5: a zero-valued leaf entry with no process context yields
unresolved for a kernel-range address and pagefile-required otherwise,
and performs no collaborator call. -/
theorem zero_leaf_entry_no_process (os : Os) (ptr : Nat) :
    pte_to_physical os ptr none 0 =
      if is_kernel_address ptr then (none, [])
      else (some page_fault_required, []) := by
  unfold pte_to_physical
  rw [unswizzle_pte_zero]
  simp [hardValid, softPrototype, softTransition, Nat.zero_testBit,
    vad_pte_to_physical]

/-- C6: the unswizzle step — a zero limit mask leaves the entry
unchanged; with the mask `0xFFFF000000000000` and the swizzle flag
clear exactly the top 16 bits are cleared; a set swizzle flag leaves the
entry unchanged regardless of the mask; and a hardware-present entry is
classified from its raw value, without any unswizzle. -/
theorem unswizzle_contract (os : Os) (ptr : Nat) (proc : Option proc_t) (v : Nat) :
    (os.physicalMemoryLimitMask = 0 → unswizzle_pte os v = v)
    ∧ (os.physicalMemoryLimitMask = 0xFFFF000000000000 →
        softSwizzleBit v = false → unswizzle_pte os v = v % 2 ^ 48)
    ∧ (softSwizzleBit v = true → unswizzle_pte os v = v)
    ∧ (hardValid v = true →
        pte_to_physical os ptr proc v
          = (some (physical_page (hardPFN v * PAGE_SIZE) (vOffset ptr)), [])) := by
  refine ⟨?_, ?_, ?_, ?_⟩
  · intro h
    unfold unswizzle_pte
    simp [h]
  · intro hm hs
    unfold unswizzle_pte
    rw [hm]
    simp only [hs, Bool.not_false, Bool.and_true]
    rw [if_pos (by decide)]
    have hx : (0xFFFFFFFFFFFFFFFF : Nat) ^^^ 0xFFFF000000000000 = 2 ^ 48 - 1 := by rfl
    rw [hx, Nat.and_pow_two_sub_one_eq_mod]
  · intro h
    unfold unswizzle_pte
    simp [h]
  · intro h
    unfold pte_to_physical
    simp [h]

/-- C6 witness: the unswizzle contract exercised at concrete inputs —
zero mask leaves `0xFFFF000000000123` unchanged; the `0xFFFF…` mask with
swizzle clear reduces it to `0x123`; a set swizzle flag (bit 4) leaves
`0xFFFF000000000010` unchanged; and a hardware-present entry `0x5001` is
classified from its raw bits. -/
theorem unswizzle_contract_witness :
    unswizzle_pte osMask0 0xFFFF000000000123 = 0xFFFF000000000123
    ∧ unswizzle_pte osMaskFFFF 0xFFFF000000000123 = 0x123
    ∧ unswizzle_pte osMaskFFFF 0xFFFF000000000010 = 0xFFFF000000000010
    ∧ pte_to_physical osMaskFFFF 0xABC none 0x5001
        = (some (physical_page (hardPFN 0x5001 * PAGE_SIZE) (vOffset 0xABC)), []) :=
  ⟨(unswizzle_contract osMask0 0 none 0xFFFF000000000123).1 rfl,
   (unswizzle_contract osMaskFFFF 0 none 0xFFFF000000000123).2.1 rfl rfl,
   (unswizzle_contract osMaskFFFF 0 none 0xFFFF000000000010).2.2.1 rfl,
   (unswizzle_contract osMaskFFFF 0xABC none 0x5001).2.2.2 rfl⟩

/-- C2 counterexample: the claim that a successful pool fetch re-runs
the full classifier (including rule 5, zero entry → descriptor path) is
false: in this session the pool fetch returns the exactly-zero entry,
and the translation yields demand-zero, whereas the full classifier on a
zero entry (no process, kernel address) yields unresolved. -/
theorem pool_reclassification_counterexample :
    hardValid ptePool = false
    ∧ softPrototype (unswizzle_pte osPool ptePool) = true
    ∧ protoAddress (unswizzle_pte osPool ptePool) &&& vad_mask ≠ vad_mask
    ∧ osPool.read_virtual_with_dtb osPool.kernel_dtb
        (protoAddress (unswizzle_pte osPool ptePool)) = some 0
    ∧ (pte_to_physical osPool 0xFFFF800000000000 none ptePool).1 = some zero_page
    ∧ (pte_to_physical osPool 0xFFFF800000000000 none 0).1 = none :=
  ⟨rfl, rfl, by decide, rfl, rfl, rfl⟩

/-- C2 (amended): on a successful pool fetch the translation result is
the terminal classification (`prototype_pte_to_physical`) of the
fetched entry — classifier rules 1, 4, 6, 7, with a prototype-flagged
fetched entry yielding pagefile-required; in particular an exactly-zero
fetched entry yields demand-zero rather than delegating to the
address-space-descriptor path. -/
theorem pool_branch_result_terminal (os : Os) (ptr : Nat) (proc : Option proc_t)
    (pte fetched : Nat)
    (hv : hardValid pte = false)
    (hp : softPrototype (unswizzle_pte os pte) = true)
    (hs : protoAddress (unswizzle_pte os pte) &&& vad_mask ≠ vad_mask)
    (hr : os.read_virtual_with_dtb os.kernel_dtb
        (protoAddress (unswizzle_pte os pte)) = some fetched) :
    (pte_to_physical os ptr proc pte).1
      = some (prototype_pte_to_physical os ptr fetched) := by
  unfold pte_to_physical
  simp [hv, hp, hs, hr]

/-- C2 witness: the amended statement at the concrete pool session,
where the fetched entry is zero and the result is its terminal
classification. -/
theorem pool_branch_result_terminal_witness :
    (pte_to_physical osPool 0xFFFF800000000000 none ptePool).1
      = some (prototype_pte_to_physical osPool 0xFFFF800000000000 0) :=
  pool_branch_result_terminal osPool 0xFFFF800000000000 none ptePool 0
    rfl rfl (by decide) rfl

/-- C1: prototype resolution is bounded: the terminal classifier
(`prototype_pte_to_physical`, used by the per-process branch and on
pool-fetched entries) maps any prototype-flagged entry to
pagefile-required and performs no collaborator call, so it never
triggers a second redirection; the pool branch performs exactly one
virtual fetch, and when the fetched entry itself carries a prototype
redirection the result is pagefile-required rather than a further
fetch. -/
theorem prototype_resolution_bounded (os : Os) (ptr : Nat) (proc : Option proc_t)
    (pte fetched : Nat)
    (hv : hardValid pte = false)
    (hp : softPrototype (unswizzle_pte os pte) = true) :
    (hardValid fetched = false →
      softPrototype (unswizzle_pte os fetched) = true →
      prototype_pte_to_physical os ptr fetched = page_fault_required)
    ∧ (protoAddress (unswizzle_pte os pte) &&& vad_mask ≠ vad_mask →
        (pte_to_physical os ptr proc pte).2
          = [Event.virtRead os.kernel_dtb (protoAddress (unswizzle_pte os pte))]
        ∧ (os.read_virtual_with_dtb os.kernel_dtb
              (protoAddress (unswizzle_pte os pte)) = some fetched →
            hardValid fetched = false →
            softPrototype (unswizzle_pte os fetched) = true →
            (pte_to_physical os ptr proc pte).1 = some page_fault_required)) := by
  constructor
  · intro h1 h2
    unfold prototype_pte_to_physical
    simp [h1, h2]
  · intro hs
    constructor
    · unfold pte_to_physical
      cases hr : os.read_virtual_with_dtb os.kernel_dtb
          (protoAddress (unswizzle_pte os pte)) <;>
        simp [hv, hp, hs, hr]
    · intro hr h1 h2
      unfold pte_to_physical
      simp [hv, hp, hs, hr]
      unfold prototype_pte_to_physical
      simp [h1, h2]

/-- C1 witness: a pool-resident entry that is itself prototype-flagged
is classified pagefile-required, and the whole translation of the
original prototype entry reports pagefile-required. -/
theorem prototype_resolution_bounded_witness :
    prototype_pte_to_physical osPoolProto 0 ptePool2 = page_fault_required
    ∧ (pte_to_physical osPoolProto 0 none ptePool).1 = some page_fault_required :=
  ⟨(prototype_resolution_bounded osPoolProto 0 none ptePool ptePool2 rfl rfl).1
      rfl rfl,
   ((prototype_resolution_bounded osPoolProto 0 none ptePool ptePool2 rfl rfl).2
      (by decide)).2 rfl rfl rfl⟩

/-- C4: branch selection for a non-present prototype-flagged entry: the
all-ones-upper-32-bits sentinel target routes to the
address-space-descriptor branch; any other target performs a single
virtual read under the OS kernel DTB (`pte_to_physical` receives no
caller DTB, so the caller's DTB cannot influence this read), and a
failed pool read yields pagefile-required. -/
theorem prototype_branch_selection (os : Os) (ptr : Nat) (proc : Option proc_t)
    (pte : Nat)
    (hv : hardValid pte = false)
    (hp : softPrototype (unswizzle_pte os pte) = true) :
    (protoAddress (unswizzle_pte os pte) &&& vad_mask = vad_mask →
      pte_to_physical os ptr proc pte = vad_pte_to_physical os ptr proc)
    ∧ (protoAddress (unswizzle_pte os pte) &&& vad_mask ≠ vad_mask →
        (pte_to_physical os ptr proc pte).2
          = [Event.virtRead os.kernel_dtb (protoAddress (unswizzle_pte os pte))]
        ∧ (os.read_virtual_with_dtb os.kernel_dtb
              (protoAddress (unswizzle_pte os pte)) = none →
            (pte_to_physical os ptr proc pte).1 = some page_fault_required)) := by
  constructor
  · intro hs
    unfold pte_to_physical
    simp [hv, hp, hs]
  · intro hs
    constructor
    · unfold pte_to_physical
      cases hr : os.read_virtual_with_dtb os.kernel_dtb
          (protoAddress (unswizzle_pte os pte)) <;>
        simp [hv, hp, hs, hr]
    · intro hr
      unfold pte_to_physical
      simp [hv, hp, hs, hr]

/-- C4 witness: the sentinel entry routes to the descriptor branch; the
pool entry performs one read under the kernel DTB and, the read failing,
yields pagefile-required. -/
theorem prototype_branch_selection_witness :
    pte_to_physical osMask0 0x1234 none pteSent
      = vad_pte_to_physical osMask0 0x1234 none
    ∧ (pte_to_physical osMask0 0xFFFF800000000000 none ptePool).2
        = [Event.virtRead 0 0x1000]
    ∧ (pte_to_physical osMask0 0xFFFF800000000000 none ptePool).1
        = some page_fault_required :=
  ⟨(prototype_branch_selection osMask0 0x1234 none pteSent rfl rfl).1 (by decide),
   ((prototype_branch_selection osMask0 0xFFFF800000000000 none ptePool rfl rfl).2
      (by decide)).1,
   ((prototype_branch_selection osMask0 0xFFFF800000000000 none ptePool rfl rfl).2
      (by decide)).2 rfl⟩

/-- C10: in the descriptor branch a failed virtual read — of the
first-prototype-entry field or of the prototype entry itself — makes
the translation unresolved (`none`), not pagefile-required; only the
pool branch maps a failed read to pagefile-required. -/
theorem vad_read_failure_unresolved (os : Os) (ptr : Nat) (p : proc_t)
    (area : vm_area_t) (sp : span_t) (fp pte : Nat)
    (ha : os.find_area p ptr = some area)
    (hsp : os.area_span p area = some sp) :
    (os.read_virtual_with_dtb p.kdtb (area.id + os.offsetFirstPrototypePte)
        = none →
      (vad_pte_to_physical os ptr (some p)).1 = none)
    ∧ (os.read_virtual_with_dtb p.kdtb (area.id + os.offsetFirstPrototypePte)
          = some fp →
        os.read_virtual_with_dtb p.kdtb
            ((fp + (ptr + 2 ^ 64 - sp.addr) % 2 ^ 64 / PAGE_SIZE * 8) % 2 ^ 64)
          = none →
        (vad_pte_to_physical os ptr (some p)).1 = none)
    ∧ (hardValid pte = false →
        softPrototype (unswizzle_pte os pte) = true →
        protoAddress (unswizzle_pte os pte) &&& vad_mask ≠ vad_mask →
        os.read_virtual_with_dtb os.kernel_dtb
            (protoAddress (unswizzle_pte os pte)) = none →
        (pte_to_physical os ptr (some p) pte).1 = some page_fault_required) := by
  refine ⟨?_, ?_, ?_⟩
  · intro h1
    unfold vad_pte_to_physical
    simp [ha, hsp, h1]
  · intro h1 h2
    unfold vad_pte_to_physical
    norm_num at h2
    simp [ha, hsp, h1, h2]
  · intro hv hp hs hr
    unfold pte_to_physical
    simp [hv, hp, hs, hr]

/-- C10 witness: the descriptor branch with a failing first read, the
descriptor branch with a failing second read, and the pool branch with a
failing pool read, at concrete sessions. -/
theorem vad_read_failure_unresolved_witness :
    (vad_pte_to_physical os10a 0x2000 (some p10)).1 = none
    ∧ (vad_pte_to_physical os10b 0x2000 (some p10)).1 = none
    ∧ (pte_to_physical os10a 0x2000 (some p10) ptePool).1
        = some page_fault_required :=
  ⟨(vad_read_failure_unresolved os10a 0x2000 p10 ⟨0x9000⟩ ⟨0, 0x100000⟩ 0 0
      rfl rfl).1 rfl,
   (vad_read_failure_unresolved os10b 0x2000 p10 ⟨0x9000⟩ ⟨0, 0x100000⟩ 0x7000 0
      rfl rfl).2.1 rfl rfl,
   (vad_read_failure_unresolved os10a 0x2000 p10 ⟨0x9000⟩ ⟨0, 0x100000⟩ 0 ptePool
      rfl rfl).2.2 rfl rfl (by decide) rfl⟩

/-- C7: large pages terminate the walk early.  A present upper-mid entry
with the large-page flag resolves with the 30-bit address offset and a
1 GiB-aligned base after exactly the two physical reads of the top and
upper-mid levels; a present lower-mid large-page entry resolves with the
21-bit offset and a 2 MiB-aligned base after exactly three reads, so the
leaf table is never read. -/
theorem large_page_short_circuit (os : Os) (ptr : Nat) (proc : Option proc_t)
    (dtb e1 e2 e3 : Nat)
    (h1 : os.read_physical ((dtb &&& (mask 40 <<< 12)) + vPml4 ptr * 8) = some e1)
    (hv1 : hardValid e1 = true)
    (h2 : os.read_physical (hardPFN e1 * PAGE_SIZE + vPdp ptr * 8) = some e2)
    (hv2 : hardValid e2 = true) :
    (hardLargePage e2 = true →
      virtual_to_physical os ptr proc dtb
        = (some (physical_page (e2 &&& (mask 22 <<< 30)) (ptr &&& mask 30)),
           [Event.physRead ((dtb &&& (mask 40 <<< 12)) + vPml4 ptr * 8),
            Event.physRead (hardPFN e1 * PAGE_SIZE + vPdp ptr * 8)])
        ∧ (e2 &&& (mask 22 <<< 30)) % 2 ^ 30 = 0)
    ∧ (hardLargePage e2 = false →
        os.read_physical (hardPFN e2 * PAGE_SIZE + vPd ptr * 8) = some e3 →
        hardValid e3 = true →
        hardLargePage e3 = true →
        virtual_to_physical os ptr proc dtb
          = (some (physical_page (e3 &&& (mask 31 <<< 21)) (ptr &&& mask 21)),
             [Event.physRead ((dtb &&& (mask 40 <<< 12)) + vPml4 ptr * 8),
              Event.physRead (hardPFN e1 * PAGE_SIZE + vPdp ptr * 8),
              Event.physRead (hardPFN e2 * PAGE_SIZE + vPd ptr * 8)])
          ∧ (e3 &&& (mask 31 <<< 21)) % 2 ^ 21 = 0) := by
  constructor
  · intro hl
    refine ⟨?_, land_shiftLeft_mod_two_pow e2 (mask 22) 30⟩
    unfold virtual_to_physical read_pml4e read_pdpe
    simp [h1, hv1, h2, hv2, hl]
  · intro hl h3 hv3 hl3
    refine ⟨?_, land_shiftLeft_mod_two_pow e3 (mask 31) 21⟩
    unfold virtual_to_physical read_pml4e read_pdpe read_pde
    simp [h1, hv1, h2, hv2, hl, h3, hv3, hl3]

/-- C7 witness: a 1 GiB large page resolved after two reads and a
2 MiB large page resolved after three reads, in concrete images. -/
theorem large_page_short_circuit_witness :
    virtual_to_physical os7a 0 none 0x1000
      = (some (physical_page ((1 <<< 30 ||| 0x81) &&& (mask 22 <<< 30))
          (0 &&& mask 30)),
         [Event.physRead 0x1000, Event.physRead 0x2000])
    ∧ virtual_to_physical os7b 0 none 0x1000
      = (some (physical_page ((1 <<< 21 ||| 0x81) &&& (mask 31 <<< 21))
          (0 &&& mask 21)),
         [Event.physRead 0x1000, Event.physRead 0x2000, Event.physRead 0x3000]) :=
  ⟨((large_page_short_circuit os7a 0 none 0x1000 0x2001 (1 <<< 30 ||| 0x81) 0
      rfl rfl rfl rfl).1 rfl).1,
   ((large_page_short_circuit os7b 0 none 0x1000 0x2001 0x3001 (1 <<< 21 ||| 0x81)
      rfl rfl rfl rfl).2 rfl rfl rfl rfl).1⟩

/-- C8: a full present chain with no large pages and a hardware-present
leaf entry translates to the leaf frame number times 4096 plus the low
12 bits of the virtual address. -/
theorem resolved_leaf_translation (os : Os) (ptr : Nat) (proc : Option proc_t)
    (dtb e1 e2 e3 e4 : Nat)
    (h1 : os.read_physical ((dtb &&& (mask 40 <<< 12)) + vPml4 ptr * 8) = some e1)
    (hv1 : hardValid e1 = true)
    (h2 : os.read_physical (hardPFN e1 * PAGE_SIZE + vPdp ptr * 8) = some e2)
    (hv2 : hardValid e2 = true)
    (hl2 : hardLargePage e2 = false)
    (h3 : os.read_physical (hardPFN e2 * PAGE_SIZE + vPd ptr * 8) = some e3)
    (hv3 : hardValid e3 = true)
    (hl3 : hardLargePage e3 = false)
    (h4 : os.read_physical (hardPFN e3 * PAGE_SIZE + vPt ptr * 8) = some e4)
    (hv4 : hardValid e4 = true) :
    Os.virtual_to_physical os proc dtb ptr
      = some (hardPFN e4 * 4096 + ptr % 2 ^ 12) := by
  unfold Os.virtual_to_physical virtual_to_physical read_pml4e read_pdpe
    read_pde read_pte pte_to_physical
  simp only [h1, hv1, h2, hv2, hl2, h3, hv3, hl3, h4, hv4, if_true, if_false,
    Bool.not_true, Bool.false_eq_true]
  simp [physical_page, PAGE_SIZE, vOffset]

/-- C8 witness: the full chain of `os8` translates `0x123` to
`7 * 4096 + 0x123`. -/
theorem resolved_leaf_translation_witness :
    Os.virtual_to_physical os8 none 0x1000 0x123 = some (7 * 4096 + 0x123) :=
  resolved_leaf_translation os8 0x123 none 0x1000 0x2001 0x3001 0x4001 0x7001
    rfl rfl rfl rfl rfl rfl rfl rfl rfl rfl

/-- The top-level read logs only physical reads. -/
theorem read_pml4e_no_write (os : Os) (ptr dtb : Nat) :
    ∀ e ∈ (read_pml4e os ptr dtb).2, e.isWrite = false := by
  intro e he
  cases hr : os.read_physical ((dtb &&& (mask 40 <<< 12)) + vPml4 ptr * 8) <;>
    · simp [read_pml4e, hr] at he
      simp [he, Event.isWrite]

/-- The upper-mid read logs only physical reads. -/
theorem read_pdpe_no_write (os : Os) (ptr pml4e : Nat) :
    ∀ e ∈ (read_pdpe os ptr pml4e).2, e.isWrite = false := by
  intro e he
  cases hr : os.read_physical (hardPFN pml4e * PAGE_SIZE + vPdp ptr * 8) <;>
    · simp [read_pdpe, hr] at he
      simp [he, Event.isWrite]

/-- The lower-mid read logs only physical reads. -/
theorem read_pde_no_write (os : Os) (ptr pdpe : Nat) :
    ∀ e ∈ (read_pde os ptr pdpe).2, e.isWrite = false := by
  intro e he
  cases hr : os.read_physical (hardPFN pdpe * PAGE_SIZE + vPd ptr * 8) <;>
    · simp [read_pde, hr] at he
      simp [he, Event.isWrite]

/-- The leaf read logs only physical reads. -/
theorem read_pte_no_write (os : Os) (ptr pde : Nat) :
    ∀ e ∈ (read_pte os ptr pde).2, e.isWrite = false := by
  intro e he
  cases hr : os.read_physical (hardPFN pde * PAGE_SIZE + vPt ptr * 8) <;>
    · simp [read_pte, hr] at he
      simp [he, Event.isWrite]

/-- The descriptor branch logs only virtual reads, never a write. -/
theorem vad_no_write (os : Os) (ptr : Nat) (proc : Option proc_t) :
    ∀ e ∈ (vad_pte_to_physical os ptr proc).2, e.isWrite = false := by
  rcases proc with _ | p
  · by_cases hk : is_kernel_address ptr = true <;>
      simp [vad_pte_to_physical, hk]
  · rcases ha : os.find_area p ptr with _ | area
    · simp [vad_pte_to_physical, ha]
    · rcases hs : os.area_span p area with _ | sp
      · simp [vad_pte_to_physical, ha, hs]
      · rcases h1 : os.read_virtual_with_dtb p.kdtb
            (area.id + os.offsetFirstPrototypePte) with _ | fp
        · simp [vad_pte_to_physical, ha, hs, h1, Event.isWrite]
        · rcases h2 : os.read_virtual_with_dtb p.kdtb
              ((fp + (ptr + 2 ^ 64 - sp.addr) % 2 ^ 64 / PAGE_SIZE * 8) % 2 ^ 64)
              with _ | pv <;>
            · norm_num at h2
              simp [vad_pte_to_physical, ha, hs, h1, h2, Event.isWrite]

/-- The software-PTE classifier logs only virtual reads, never a
write. -/
theorem pte_no_write (os : Os) (ptr : Nat) (proc : Option proc_t) (pte : Nat) :
    ∀ e ∈ (pte_to_physical os ptr proc pte).2, e.isWrite = false := by
  by_cases hv : hardValid pte = true
  · simp [pte_to_physical, hv]
  · by_cases hp : softPrototype (unswizzle_pte os pte) = true
    · by_cases hs : protoAddress (unswizzle_pte os pte) &&& vad_mask = vad_mask
      · simp only [pte_to_physical, hv, hp, hs]
        simp only [if_true, if_false, Bool.false_eq_true]
        exact vad_no_write os ptr proc
      · rcases hr : os.read_virtual_with_dtb os.kernel_dtb
            (protoAddress (unswizzle_pte os pte)) with _ | f <;>
          simp [pte_to_physical, hv, hp, hs, hr, Event.isWrite]
    · by_cases ht : softTransition (unswizzle_pte os pte) = true
      · simp [pte_to_physical, hv, hp, ht]
      · by_cases hz : unswizzle_pte os pte = 0
        · simp only [pte_to_physical, hv, hp, ht, hz]
          simp only [if_true, if_false, Bool.false_eq_true]
          exact vad_no_write os ptr proc
        · by_cases hpf : softPageFileHigh (unswizzle_pte os pte) = 0 <;>
            simp [pte_to_physical, hv, hp, ht, hz, hpf]

/-- The whole walker logs only reads, never a physical write. -/
theorem walker_no_write (os : Os) (ptr : Nat) (proc : Option proc_t) (dtb : Nat) :
    ∀ e ∈ (virtual_to_physical os ptr proc dtb).2, e.isWrite = false := by
  rcases hm1 : read_pml4e os ptr dtb with ⟨r1, l1⟩
  have H1 : ∀ e ∈ l1, Event.isWrite e = false := by
    intro e he
    exact read_pml4e_no_write os ptr dtb e (by rw [hm1]; exact he)
  rcases r1 with _ | pml4e
  · simp only [virtual_to_physical, hm1]
    exact H1
  · rcases hm2 : read_pdpe os ptr pml4e with ⟨r2, l2⟩
    have H2 : ∀ e ∈ l2, Event.isWrite e = false := by
      intro e he
      exact read_pdpe_no_write os ptr pml4e e (by rw [hm2]; exact he)
    rcases r2 with _ | pdpe
    · simp only [virtual_to_physical, hm1, hm2]
      intro e he
      rcases List.mem_append.mp he with h | h
      · exact H1 e h
      · exact H2 e h
    · by_cases hl : hardLargePage pdpe = true
      · simp only [virtual_to_physical, hm1, hm2, hl, if_true]
        intro e he
        rcases List.mem_append.mp he with h | h
        · exact H1 e h
        · exact H2 e h
      · rcases hm3 : read_pde os ptr pdpe with ⟨r3, l3⟩
        have H3 : ∀ e ∈ l3, Event.isWrite e = false := by
          intro e he
          exact read_pde_no_write os ptr pdpe e (by rw [hm3]; exact he)
        rcases r3 with _ | pde
        · simp only [virtual_to_physical, hm1, hm2, hl, if_false,
            Bool.false_eq_true, hm3]
          intro e he
          rcases List.mem_append.mp he with h | h
          · rcases List.mem_append.mp h with h' | h'
            · exact H1 e h'
            · exact H2 e h'
          · exact H3 e h
        · by_cases hv : hardValid pde = true
          · by_cases hl2 : hardLargePage pde = true
            · simp only [virtual_to_physical, hm1, hm2, hl, hm3, hv, hl2,
                Bool.not_true, if_false, if_true, Bool.false_eq_true]
              intro e he
              rcases List.mem_append.mp he with h | h
              · rcases List.mem_append.mp h with h' | h'
                · exact H1 e h'
                · exact H2 e h'
              · exact H3 e h
            · rcases hm4 : read_pte os ptr pde with ⟨r4, l4⟩
              have H4 : ∀ e ∈ l4, Event.isWrite e = false := by
                intro e he
                exact read_pte_no_write os ptr pde e (by rw [hm4]; exact he)
              rcases r4 with _ | pte
              · simp only [virtual_to_physical, hm1, hm2, hl, hm3, hv, hl2,
                  Bool.not_true, if_false, Bool.false_eq_true, hm4]
                intro e he
                rcases List.mem_append.mp he with h | h
                · rcases List.mem_append.mp h with h' | h'
                  · rcases List.mem_append.mp h' with h'' | h''
                    · exact H1 e h''
                    · exact H2 e h''
                  · exact H3 e h'
                · exact H4 e h
              · simp only [virtual_to_physical, hm1, hm2, hl, hm3, hv, hl2,
                  Bool.not_true, if_false, Bool.false_eq_true, hm4]
                intro e he
                rcases List.mem_append.mp he with h | h
                · rcases List.mem_append.mp h with h' | h'
                  · rcases List.mem_append.mp h' with h'' | h''
                    · rcases List.mem_append.mp h'' with h''' | h'''
                      · exact H1 e h'''
                      · exact H2 e h'''
                    · exact H3 e h''
                  · exact H4 e h'
                · exact pte_no_write os ptr proc pte e h
          · simp only [virtual_to_physical, hm1, hm2, hl, hm3, hv,
              Bool.not_false, if_true, if_false, Bool.false_eq_true]
            intro e he
            rcases List.mem_append.mp he with h | h
            · rcases List.mem_append.mp h with h' | h'
              · rcases List.mem_append.mp h' with h'' | h''
                · exact H1 e h''
                · exact H2 e h''
              · exact H3 e h'
            · exact pte_no_write os ptr proc pde e h

/-- C9: writing a page whose translation is demand-zero succeeds exactly
when every one of the 4096 source bytes is zero, and the call performs no
physical write in either case. -/
theorem write_page_demand_zero (os : Os) (ptr : Nat) (src : Nat → Nat)
    (proc : Option proc_t) (dtb : Nat)
    (h : (virtual_to_physical os ptr proc dtb).1 = some zero_page) :
    ((write_page os ptr src proc dtb).1 = true ↔ ∀ i < 4096, src i = 0)
    ∧ (write_page os ptr src proc dtb).2.all (fun e => !e.isWrite) = true := by
  rcases hvp : virtual_to_physical os ptr proc dtb with ⟨r, l⟩
  rw [hvp] at h
  have hr : r = some zero_page := h
  subst hr
  constructor
  · simp only [write_page, hvp, zero_page]
    simp [is_zero, PAGE_SIZE, List.all_eq_true]
  · simp only [write_page, hvp, zero_page]
    simp only [List.all_eq_true]
    intro e he
    have := walker_no_write os ptr proc dtb e (by rw [hvp]; exact he)
    simp [this]

/-- C9 witness: in the image `os9`, address 0 translates to demand-zero
and writing an all-zero buffer succeeds. -/
theorem write_page_demand_zero_witness :
    (write_page os9 0 (fun _ => 0) none 0x1000).1 = true :=
  ((write_page_demand_zero os9 0 (fun _ => 0) none 0x1000 rfl).1).mpr
    (fun _ _ => rfl)

end Icebox
